import Mathlib

/-
Verification development for the DomainAssembly incremental loading core
(src/src/coreclr/vm/domainassembly.cpp).

The embedding is shallow: each C++ member function becomes a Lean function on an
explicit DomainAssembly state record; HRESULT values are signed 32 bit integers
represented as Int; byte blobs are lists of naturals below 256; notification
side effects are returned as explicit event lists.
-/

set_option maxRecDepth 8000

/-- HRESULT success code S_OK, viewed as a signed 32 bit value. -/
def S_OK : Int := 0

/-- HRESULT code S_FALSE, returned by GetCustomAttributeByName when the attribute is absent. -/
def S_FALSE : Int := 1

/-- HRESULT COR_E_BADIMAGEFORMAT (0x8007000B), viewed as a signed 32 bit value. -/
def COR_E_BADIMAGEFORMAT : Int := 0x8007000B - 0x100000000

/-- HRESULT E_FAIL (0x80004005), viewed as a signed 32 bit value. -/
def E_FAIL : Int := 0x80004005 - 0x100000000

/-- HRESULT MSEE_E_ASSEMBLYLOADINPROGRESS (0x80131016), viewed as a signed 32 bit value. -/
def MSEE_E_ASSEMBLYLOADINPROGRESS : Int := 0x80131016 - 0x100000000

/-- The FAILED test on HRESULT values: negative when viewed as signed 32 bit. -/
abbrev FAILED (hr : Int) : Prop := hr < 0

/-- The three DebuggerAssemblyControlFlags bits that GetDebuggingCustomAttributes
manipulates inside the DWORD it receives: trackJitInfo embeds the
DACF_OBSOLETE_TRACK_JIT_INFO mask, ignorePdbs embeds DACF_IGNORE_PDBS, and
allowJitOpts embeds DACF_ALLOW_JIT_OPTS. The masks are disjoint, so the DWORD
is represented by one Bool per mask. -/
structure DacfFlags where
  trackJitInfo : Bool
  ignorePdbs : Bool
  allowJitOpts : Bool
  deriving DecidableEq, Repr

/-- Default debugging configuration, DACF_ALLOW_JIT_OPTS alone, as initialized at the
top of DomainAssembly::ComputeDebuggingConfig. -/
def dacfDefault : DacfFlags :=
  { trackJitInfo := false, ignorePdbs := false, allowJitOpts := true }

/-- DomainAssembly::GetDebuggingCustomAttributes (domainassembly.cpp lines 628 to 708).
hrAttr and blob are the HRESULT and byte blob produced by the metadata lookup
GetCustomAttributeByName on the DebuggableAttribute; pdwFlags is the incoming
value of *pdwFlags. Returns the HRESULT returned by the function together with
the final value of *pdwFlags. When the blob has size 6 or 8 and a valid 1,0
header, byte 2 bit 0 drives tracking, byte 2 bit 1 drives ignoring PDBs, and
optimizations are allowed when the tracking bit is clear or byte 3 is zero. -/
def GetDebuggingCustomAttributes (hrAttr : Int) (blob : List Nat) (pdwFlags : DacfFlags) :
    Int × DacfFlags :=
  if ¬ (FAILED hrAttr ∨ hrAttr = S_FALSE) then
    if blob.length = 6 ∨ blob.length = 8 then
      if ¬ (blob.getD 0 0 = 1 ∧ blob.getD 1 0 = 0) then
        (COR_E_BADIMAGEFORMAT, pdwFlags)
      else
        (hrAttr,
          { trackJitInfo := Nat.land (blob.getD 2 0) 1 != 0
            ignorePdbs := Nat.land (blob.getD 2 0) 2 != 0
            allowJitOpts := Nat.land (blob.getD 2 0) 1 == 0 || blob.getD 3 0 == 0 })
    else (hrAttr, pdwFlags)
  else (hrAttr, pdwFlags)

/-- DomainAssembly::ComputeDebuggingConfig (domainassembly.cpp lines 584 to 603), in the
DEBUGGING_SUPPORTED build: starts from DACF_ALLOW_JIT_OPTS, runs
GetDebuggingCustomAttributes on the lookup result, and propagates a FAILED
HRESULT as a thrown failure. -/
def ComputeDebuggingConfig (hrAttr : Int) (blob : List Nat) : Except Int DacfFlags :=
  let r := GetDebuggingCustomAttributes hrAttr blob dacfDefault
  if FAILED r.1 then Except.error r.1 else Except.ok r.2

/-- Claim C1 counterexample: decoding the six byte blob 1,0,3,1,0,0 sets DACF_IGNORE_PDBS,
because bit 1 of byte 2 is set in 0x3, refuting the stated outcome that external debug
symbol files are honored (DACF_IGNORE_PDBS clear). -/
theorem C1_counterexample :
    (GetDebuggingCustomAttributes S_OK [1, 0, 3, 1, 0, 0] dacfDefault).2.ignorePdbs = true := by
  decide

/-- Claim C1 (amended): decoding the blob 1,0,3,1 padded to six bytes yields JIT info
tracking enabled, external debug symbol files ignored (DACF_IGNORE_PDBS set, since bit 1
of byte 2 is set in 0x3), and optimizations disallowed; decoding 1,0,0,0,0,0 yields
tracking disabled, symbol files honored, and optimizations allowed. -/
theorem C1_debuggable_blob_decoding :
    GetDebuggingCustomAttributes S_OK [1, 0, 3, 1, 0, 0] dacfDefault =
      (S_OK, { trackJitInfo := true, ignorePdbs := true, allowJitOpts := false }) ∧
    GetDebuggingCustomAttributes S_OK [1, 0, 0, 0, 0, 0] dacfDefault =
      (S_OK, { trackJitInfo := false, ignorePdbs := false, allowJitOpts := true }) := by
  decide

/-- Claim C3 counterexample: a five byte blob is not rejected as a bad image format; the
size test for 6 or 8 simply skips it, the function returns the lookup HRESULT S_OK, and
the flags are left unchanged. -/
theorem C3_counterexample :
    GetDebuggingCustomAttributes S_OK [1, 0, 3, 1, 0] dacfDefault = (S_OK, dacfDefault) ∧
    S_OK ≠ COR_E_BADIMAGEFORMAT := by
  decide

/-- Claim C3 (amended): a successfully looked up blob whose size is neither 6 nor 8 (for
example any 5 byte blob) is silently ignored, returning the lookup success code and
leaving the flags unchanged; a blob of size 6 or 8 whose byte 0 is not 1 or whose byte 1
is not 0 is rejected with COR_E_BADIMAGEFORMAT, leaving the flags unchanged. -/
theorem C3_malformed_blob (flags : DacfFlags) (blob : List Nat) :
    (blob.length = 5 → GetDebuggingCustomAttributes S_OK blob flags = (S_OK, flags)) ∧
    ((blob.length = 6 ∨ blob.length = 8) → ¬ (blob.getD 0 0 = 1 ∧ blob.getD 1 0 = 0) →
      GetDebuggingCustomAttributes S_OK blob flags = (COR_E_BADIMAGEFORMAT, flags)) := by
  have hcond : ¬ (FAILED S_OK ∨ S_OK = S_FALSE) := by simp [S_OK, S_FALSE, FAILED]
  constructor
  · intro h5
    unfold GetDebuggingCustomAttributes
    rw [if_pos hcond, if_neg (by omega : ¬ (blob.length = 6 ∨ blob.length = 8))]
  · intro hlen hbad
    unfold GetDebuggingCustomAttributes
    rw [if_pos hcond, if_pos hlen, if_pos hbad]

/-- Claim C3 witness: the amended statement evaluated on the six byte blob starting 2,0
and on a five byte blob. -/
theorem C3_malformed_blob_witness :
    GetDebuggingCustomAttributes S_OK [2, 0, 0, 0, 0, 0] dacfDefault =
      (COR_E_BADIMAGEFORMAT, dacfDefault) ∧
    GetDebuggingCustomAttributes S_OK [1, 0, 3, 1, 0] dacfDefault = (S_OK, dacfDefault) :=
  ⟨(C3_malformed_blob dacfDefault [2, 0, 0, 0, 0, 0]).2 (Or.inl rfl) (by decide),
   (C3_malformed_blob dacfDefault [1, 0, 3, 1, 0]).1 rfl⟩

/-- Claim C8: a well formed blob whose tracking bit (bit 0 of byte 2) is off always leaves
optimizations allowed, regardless of the value of byte 3; and when the attribute is absent
(the lookup returns S_FALSE) ComputeDebuggingConfig returns the default configuration,
which allows optimizations. -/
theorem C8_opts_allowed_when_tracking_off (flags : DacfFlags) (blob : List Nat)
    (hlen : blob.length = 6 ∨ blob.length = 8)
    (h0 : blob.getD 0 0 = 1) (h1 : blob.getD 1 0 = 0)
    (htrack : Nat.land (blob.getD 2 0) 1 = 0) :
    (GetDebuggingCustomAttributes S_OK blob flags).2.allowJitOpts = true ∧
    ComputeDebuggingConfig S_FALSE [] = Except.ok dacfDefault ∧
    dacfDefault.allowJitOpts = true := by
  have hcond : ¬ (FAILED S_OK ∨ S_OK = S_FALSE) := by simp [S_OK, S_FALSE, FAILED]
  refine ⟨?_, by rfl, rfl⟩
  unfold GetDebuggingCustomAttributes
  rw [if_pos hcond, if_pos hlen, if_neg (not_not_intro ⟨h0, h1⟩)]
  simp only [List.getD, List.get?_eq_getElem?] at htrack
  simp [htrack]

/-- Claim C8 witness: the blob 1,0,2,5,0,0 has the tracking bit off and byte 3 nonzero,
yet optimizations stay allowed; the absent attribute case evaluates to the default. -/
theorem C8_opts_allowed_witness :
    (GetDebuggingCustomAttributes S_OK [1, 0, 2, 5, 0, 0] dacfDefault).2.allowJitOpts = true ∧
    ComputeDebuggingConfig S_FALSE [] = Except.ok dacfDefault ∧
    dacfDefault.allowJitOpts = true :=
  C8_opts_allowed_when_tracking_off dacfDefault [1, 0, 2, 5, 0, 0]
    (Or.inl rfl) (by decide) (by decide) (by decide)

/-- One observable notification dispatched by the loading core to the tracing (ETW),
profiler, debugger, or DAC diagnostic sinks. -/
inductive Notification where
  | etwLoadFinished (hr : Int)
  | profilerLoadFinished (hr : Int)
  | debuggerLoadAssembly
  | debuggerLoadModule
  | dacModuleLoad
  deriving DecidableEq, Repr

/-- FileLoadLevel FILE_LOAD_CREATE, the first of the eight ordered stages. -/
def FILE_LOAD_CREATE : Nat := 0

/-- FileLoadLevel FILE_LOAD_BEGIN. -/
def FILE_LOAD_BEGIN : Nat := 1

/-- FileLoadLevel FILE_LOAD_BEFORE_TYPE_LOAD. -/
def FILE_LOAD_BEFORE_TYPE_LOAD : Nat := 2

/-- FileLoadLevel FILE_LOAD_EAGER_FIXUPS. -/
def FILE_LOAD_EAGER_FIXUPS : Nat := 3

/-- FileLoadLevel FILE_LOAD_DELIVER_EVENTS. -/
def FILE_LOAD_DELIVER_EVENTS : Nat := 4

/-- FileLoadLevel FILE_LOAD_VTABLE_FIXUPS. -/
def FILE_LOAD_VTABLE_FIXUPS : Nat := 5

/-- FileLoadLevel FILE_LOADED, the terminal fully loaded guarantee. -/
def FILE_LOADED : Nat := 6

/-- FileLoadLevel FILE_ACTIVE, the terminal execution verified guarantee. -/
def FILE_ACTIVE : Nat := 7

/-- The DomainAssembly fields the loading core reads and writes, together with the
collaborator facts its branches consult. m_pError stores the HRESULT of the domain
bound clone captured by SetError (NULL when absent); m_hasModule is m_pModule not
NULL; m_visible is GetAssembly() not NULL (IsVisibleToDebugger); m_hasGlobalMT is
whether the module has a global MethodTable (a global initializer type);
g_debugInterface is whether g_pDebugInterface is non NULL. -/
structure DAState where
  m_level : Nat
  m_loading : Bool
  m_pError : Option Int
  m_profilerNotified : Bool
  m_shouldNotifyDebugger : Bool
  m_debuggerNotified : Bool
  m_bDisableActivationCheck : Bool
  m_fHostAssemblyPublished : Bool
  m_hasModule : Bool
  m_visible : Bool
  m_hasGlobalMT : Bool
  g_debugInterface : Bool
  deriving DecidableEq, Repr

/-- DomainAssembly::IsError: the captured error pointer is non NULL. -/
def IsError (s : DAState) : Bool := s.m_pError.isSome

/-- DomainAssembly::IsLoading: the m_loading flag. -/
def IsLoading (s : DAState) : Bool := s.m_loading

/-- Modelled from the spec: IsLoaded, the accessor declared in the class header outside
src, holds once the unit reached the terminal FILE_LOADED guarantee of section 4.1. -/
def IsLoaded (s : DAState) : Bool := decide (FILE_LOADED ≤ s.m_level)

/-- Modelled from the spec: IsActive, the accessor declared in the class header outside
src, holds once the unit reached the terminal FILE_ACTIVE guarantee of section 4.1. -/
def IsActive (s : DAState) : Bool := decide (FILE_ACTIVE ≤ s.m_level)

/-- A failure raised by a level request: either the captured error clone rethrown by
ExInfo::Throw, or a plain ThrowHR of an HRESULT. -/
inductive LoadFailure where
  | captured (hr : Int)
  | hresult (hr : Int)
  deriving DecidableEq, Repr

/-- DomainAssembly::ThrowIfError (lines 210 to 228): when the current level is below the
target and an error is captured, rethrow the captured clone; otherwise return normally. -/
def ThrowIfError (s : DAState) (targetLevel : Nat) : Except LoadFailure Unit :=
  if s.m_level < targetLevel then
    match s.m_pError with
    | some hr => Except.error (LoadFailure.captured hr)
    | none => Except.ok ()
  else Except.ok ()

/-- DomainAssembly::RequireLoadLevel (lines 156 to 173): a non driving check; below the
target it rethrows the captured error when present and otherwise throws
MSEE_E_ASSEMBLYLOADINPROGRESS. It writes no field of the unit. -/
def RequireLoadLevel (s : DAState) (targetLevel : Nat) : Except LoadFailure Unit :=
  if s.m_level < targetLevel then
    match ThrowIfError s targetLevel with
    | Except.error e => Except.error e
    | Except.ok _ => Except.error (LoadFailure.hresult MSEE_E_ASSEMBLYLOADINPROGRESS)
  else Except.ok ()

/-- DomainAssembly::CheckNoError (lines 230 to 237): the level already reached the target,
or no error is captured. -/
def CheckNoError (s : DAState) (targetLevel : Nat) : Bool :=
  decide (targetLevel ≤ s.m_level) || !IsError s

/-- DomainAssembly::CheckLoadLevel (lines 126 to 152). With deadlockOK the check defers
to AppDomain::CheckLoading, an external collaborator whose verdict is passed in as
domainCheckLoading; without it, a pure comparison against the current level. -/
def CheckLoadLevel (s : DAState) (requiredLevel : Nat) (deadlockOK : Bool)
    (domainCheckLoading : Bool) : Bool :=
  if deadlockOK then domainCheckLoading
  else decide (requiredLevel ≤ s.m_level)

/-- DomainAssembly::CheckActivated (lines 267 to 295). peLoaded is
GetPEAssembly()->IsLoaded(), peIsSystem is GetPEAssembly()->IsSystem(), and
domainCheckLoading is the external verdict consulted by CheckLoadLevel with its
defaulted deadlockOK = TRUE argument. -/
def CheckActivated (s : DAState) (peLoaded peIsSystem domainCheckLoading : Bool) : Bool :=
  if !(CheckNoError s FILE_ACTIVE) then false
  else if IsActive s then true
  else if peIsSystem then true
  else if !peLoaded then false
  else if !(IsLoaded s) then false
  else s.m_bDisableActivationCheck || CheckLoadLevel s FILE_ACTIVE true domainCheckLoading

/-- DomainAssembly::SetError (lines 176 to 208): capture a domain bound clone of the
exception (modelled by its HRESULT), then, only when the module pointer is non NULL,
notify ETW of the failure code and, if the one shot profiler flag is not yet set, set it
and notify the profiler of the failure code. -/
def SetError (s : DAState) (hr : Int) : DAState × List Notification :=
  let s0 := { s with m_pError := some hr }
  if s.m_hasModule then
    if s.m_profilerNotified then
      (s0, [Notification.etwLoadFinished hr])
    else
      ({ s0 with m_profilerNotified := true },
        [Notification.etwLoadFinished hr, Notification.profilerLoadFinished hr])
  else (s0, [])

/-- DomainAssembly::Begin (lines 492 to 503): register with the domain table and publish
the host assembly association. -/
def Begin (s : DAState) : DAState × List Notification :=
  ({ s with m_fHostAssemblyPublished := true }, [])

/-- DomainAssembly::BeforeTypeLoad (lines 375 to 409): if the one shot profiler flag is
not yet set, set it and deliver the profiler load finished notification with S_OK. -/
def BeforeTypeLoad (s : DAState) : DAState × List Notification :=
  if s.m_profilerNotified then (s, [])
  else ({ s with m_profilerNotified := true }, [Notification.profilerLoadFinished S_OK])

/-- DomainAssembly::EagerFixups (lines 411 to 422): applies ready to run fixups through
an external collaborator; no observable core state change or sink notification. -/
def EagerFixups (s : DAState) : DAState × List Notification := (s, [])

/-- DomainAssembly::NotifyDebuggerLoad (lines 710 to 752), at the call instance made by
DeliverSyncEvents with flags = ATTACH_ASSEMBLY_LOAD and attaching = FALSE: returns with
no effect when the unit is invisible to the debugger or no debug interface exists;
otherwise dispatches the assembly load and the module load notifications when the should
notify flag is up, and then marks the debugger notified. -/
def NotifyDebuggerLoad (s : DAState) : DAState × List Notification :=
  if !s.m_visible then (s, [])
  else if !s.g_debugInterface then (s, [])
  else if s.m_shouldNotifyDebugger then
    ({ s with m_debuggerNotified := true },
      [Notification.debuggerLoadAssembly, Notification.debuggerLoadModule,
        Notification.debuggerLoadModule])
  else (s, [])

/-- DomainAssembly::DeliverSyncEvents (lines 552 to 582): notify ETW with S_OK
unconditionally; then, under the one shot profiler flag, notify the profiler with S_OK;
then, if the debugger has not been notified, raise the should notify flag and dispatch
NotifyDebuggerLoad. -/
def DeliverSyncEvents (s : DAState) : DAState × List Notification :=
  let p :=
    if s.m_profilerNotified then (s, ([] : List Notification))
    else ({ s with m_profilerNotified := true }, [Notification.profilerLoadFinished S_OK])
  let d :=
    if p.1.m_debuggerNotified then (p.1, ([] : List Notification))
    else NotifyDebuggerLoad { p.1 with m_shouldNotifyDebugger := true }
  (d.1, Notification.etwLoadFinished S_OK :: (p.2 ++ d.2))

/-- DomainAssembly::VtableFixups (lines 424 to 429): patches exported vtable slots
through an external collaborator; no observable core state change or notification. -/
def VtableFixups (s : DAState) : DAState × List Notification := (s, [])

/-- DomainAssembly::FinishLoad (lines 431 to 445): set the level to FILE_LOADED before
firing the DAC module load notification. -/
def FinishLoad (s : DAState) : DAState × List Notification :=
  ({ s with m_level := FILE_LOADED }, [Notification.dacModuleLoad])

/-- DomainAssembly::Activate (lines 447 to 490): resolve the exception wrap policy, and
when the module has a global MethodTable, disable further activation checks before
running the class initializer; none of the three sinks is notified. -/
def Activate (s : DAState) : DAState × List Notification :=
  if s.m_hasGlobalMT then ({ s with m_bDisableActivationCheck := true }, [])
  else (s, [])

/-- The switch of DomainAssembly::DoIncrementalLoad on the requested level: level values
FILE_LOAD_BEGIN through FILE_ACTIVE dispatch to the matching step function, in order; any
other value reaches UNREACHABLE, modelled as none. -/
def dispatchStep (s : DAState) (level : Nat) : Option (DAState × List Notification) :=
  if level = FILE_LOAD_BEGIN then some (Begin s)
  else if level = FILE_LOAD_BEFORE_TYPE_LOAD then some (BeforeTypeLoad s)
  else if level = FILE_LOAD_EAGER_FIXUPS then some (EagerFixups s)
  else if level = FILE_LOAD_DELIVER_EVENTS then some (DeliverSyncEvents s)
  else if level = FILE_LOAD_VTABLE_FIXUPS then some (VtableFixups s)
  else if level = FILE_LOADED then some (FinishLoad s)
  else if level = FILE_ACTIVE then some (Activate s)
  else none

/-- DomainAssembly::DoIncrementalLoad (lines 319 to 373): return FALSE at once when an
error is captured, running no step; otherwise dispatch the step for the level (the
multicore JIT recording touches only an external observer) and return TRUE. -/
def DoIncrementalLoad (s : DAState) (level : Nat) :
    Option (DAState × List Notification × Bool) :=
  if IsError s then some (s, [], false)
  else
    match dispatchStep s level with
    | some r => some (r.1, r.2, true)
    | none => none

/-- Modelled from the spec: AppDomain::LoadDomainAssembly, the Domain Loader drive loop
of sections 2 and 4.1, which lives outside src. While the unit is loading and below the
target it asks DoIncrementalLoad for the next level; on TRUE the level advances (section
2, on success the level advances), on FALSE the error has been recorded and loading
becomes false (section 4.2, after set-error loading becomes false); loading also ends at
the terminal level. The fuel argument bounds the recursion. -/
def driveToLevel : DAState → Nat → Nat → DAState
  | s, _, 0 => s
  | s, target, Nat.succ fuel =>
    if !s.m_loading || target ≤ s.m_level then s
    else
      match DoIncrementalLoad s (s.m_level + 1) with
      | none => s
      | some (s1, _, true) =>
        let s2 := if s1.m_level < s.m_level + 1 then { s1 with m_level := s.m_level + 1 } else s1
        let s3 := if FILE_ACTIVE ≤ s2.m_level then { s2 with m_loading := false } else s2
        driveToLevel s3 target fuel
      | some (s1, _, false) => { s1 with m_loading := false }

/-- DomainAssembly::EnsureLoadLevel (lines 98 to 123): while loading, delegate to the
Domain Loader drive loop (spec modelled driveToLevel) and then enforce the requirement
with the deadlock tolerant off by one RequireLoadLevel on targetLevel - 1; when no longer
loading, ThrowIfError on the target. -/
def EnsureLoadLevel (s : DAState) (targetLevel : Nat) : Except LoadFailure DAState :=
  if IsLoading s then
    let s1 := driveToLevel s targetLevel (targetLevel + 1)
    match RequireLoadLevel s1 (targetLevel - 1) with
    | Except.error e => Except.error e
    | Except.ok _ => Except.ok s1
  else
    match ThrowIfError s targetLevel with
    | Except.error e => Except.error e
    | Except.ok _ => Except.ok s

/-- The DomainAssembly state right after a successful construction (lines 27 to 67):
level FILE_LOAD_CREATE, loading, no error, no notification flag set, activation check
enabled, host association unpublished, module present. The debugger is absent in this
environment and the module carries a global initializer type. -/
def initState : DAState :=
  { m_level := FILE_LOAD_CREATE
    m_loading := true
    m_pError := none
    m_profilerNotified := false
    m_shouldNotifyDebugger := false
    m_debuggerNotified := false
    m_bDisableActivationCheck := false
    m_fHostAssemblyPublished := false
    m_hasModule := true
    m_visible := true
    m_hasGlobalMT := true
    g_debugInterface := false }

/-- A unit frozen by an error captured while at FILE_LOAD_EAGER_FIXUPS: the clone is
stored and, per section 4.2 of the spec, loading has ended. -/
def errState : DAState :=
  { initState with
    m_level := FILE_LOAD_EAGER_FIXUPS
    m_loading := false
    m_pError := some E_FAIL }

/-- Claim C5: once an error is captured, DoIncrementalLoad returns FALSE at once without
dispatching any step (state unchanged, no notification), the drive loop never advances
the level, and EnsureLoadLevel with any target above the frozen level rethrows the
captured clone (per section 4.2 of the spec, loading is false once the error is
captured, so EnsureLoadLevel takes its ThrowIfError branch). -/
theorem C5_error_freezes (s : DAState) (hr : Int) (herr : s.m_pError = some hr) :
    (∀ level : Nat, DoIncrementalLoad s level = some (s, [], false)) ∧
    (∀ target fuel : Nat, (driveToLevel s target fuel).m_level = s.m_level ∧
      (driveToLevel s target fuel).m_pError = some hr) ∧
    (∀ target : Nat, s.m_loading = false → s.m_level < target →
      EnsureLoadLevel s target = Except.error (LoadFailure.captured hr)) := by
  have hIsErr : IsError s = true := by simp [IsError, herr]
  have h1 : ∀ level : Nat, DoIncrementalLoad s level = some (s, [], false) := by
    intro level
    simp [DoIncrementalLoad, hIsErr]
  refine ⟨h1, ?_, ?_⟩
  · intro target fuel
    cases fuel with
    | zero => exact ⟨rfl, herr⟩
    | succ n =>
      simp only [driveToLevel, h1]
      split
      · exact ⟨rfl, herr⟩
      · simp [herr]
  · intro target hld hlt
    simp [EnsureLoadLevel, IsLoading, hld, ThrowIfError, hlt, herr]

/-- Claim C5 witness: the frozen unit errState refuses the DELIVER_EVENTS step, keeps its
level across the drive loop, and rethrows its captured clone for target FILE_ACTIVE. -/
theorem C5_error_freezes_witness :
    DoIncrementalLoad errState FILE_LOAD_DELIVER_EVENTS = some (errState, [], false) ∧
    (driveToLevel errState FILE_ACTIVE 8).m_level = errState.m_level ∧
    EnsureLoadLevel errState FILE_ACTIVE = Except.error (LoadFailure.captured E_FAIL) :=
  ⟨(C5_error_freezes errState E_FAIL rfl).1 FILE_LOAD_DELIVER_EVENTS,
   ((C5_error_freezes errState E_FAIL rfl).2.1 FILE_ACTIVE 8).1,
   (C5_error_freezes errState E_FAIL rfl).2.2 FILE_ACTIVE rfl (by decide)⟩

/-- Claim C6: RequireLoadLevel returns normally whenever the current level is at least the
target; below the target it rethrows the captured error when one is present and otherwise
throws the distinct MSEE_E_ASSEMBLYLOADINPROGRESS failure; the embedding is a pure
function of the state, matching a source body that writes no field. -/
theorem C6_require_load_level (s : DAState) (target : Nat) :
    (target ≤ s.m_level → RequireLoadLevel s target = Except.ok ()) ∧
    (∀ hr : Int, s.m_level < target → s.m_pError = some hr →
      RequireLoadLevel s target = Except.error (LoadFailure.captured hr)) ∧
    (s.m_level < target → s.m_pError = none →
      RequireLoadLevel s target =
        Except.error (LoadFailure.hresult MSEE_E_ASSEMBLYLOADINPROGRESS)) := by
  refine ⟨?_, ?_, ?_⟩
  · intro h
    simp [RequireLoadLevel, Nat.not_lt.mpr h]
  · intro hr hlt herr
    simp [RequireLoadLevel, ThrowIfError, hlt, herr]
  · intro hlt herr
    simp [RequireLoadLevel, ThrowIfError, hlt, herr]

/-- Claim C6 witness: the three outcomes at concrete states, target FILE_LOADED. -/
theorem C6_require_load_level_witness :
    RequireLoadLevel { errState with m_level := FILE_LOADED } FILE_LOADED = Except.ok () ∧
    RequireLoadLevel errState FILE_LOADED = Except.error (LoadFailure.captured E_FAIL) ∧
    RequireLoadLevel initState FILE_LOADED =
      Except.error (LoadFailure.hresult MSEE_E_ASSEMBLYLOADINPROGRESS) :=
  ⟨(C6_require_load_level { errState with m_level := FILE_LOADED } FILE_LOADED).1 (by decide),
   (C6_require_load_level errState FILE_LOADED).2.1 E_FAIL (by decide) rfl,
   (C6_require_load_level initState FILE_LOADED).2.2 (by decide) rfl⟩

/-- Claim C7: CheckNoError is true exactly when the current level is at least the target
or no error is captured; in particular it is true whenever the level has reached the
target, including the boundary where the level equals the target exactly. -/
theorem C7_check_no_error (s : DAState) (L : Nat) :
    (CheckNoError s L = true ↔ (L ≤ s.m_level ∨ s.m_pError = none)) ∧
    (L ≤ s.m_level → CheckNoError s L = true) := by
  constructor
  · cases h : s.m_pError <;> simp [CheckNoError, IsError, h]
  · intro h
    simp [CheckNoError, h]

/-- Claim C7 witness: the boundary case, a unit frozen by an error at exactly the
requested level, still passes CheckNoError. -/
theorem C7_check_no_error_witness :
    (CheckNoError errState FILE_LOAD_EAGER_FIXUPS = true ↔
      (FILE_LOAD_EAGER_FIXUPS ≤ errState.m_level ∨ errState.m_pError = none)) ∧
    CheckNoError errState FILE_LOAD_EAGER_FIXUPS = true :=
  ⟨(C7_check_no_error errState FILE_LOAD_EAGER_FIXUPS).1,
   (C7_check_no_error errState FILE_LOAD_EAGER_FIXUPS).2 (by decide)⟩

/-- Claim C9: SetError called under its precondition on a unit whose module pointer is
NULL still captures the error, but delivers no notification at all, and any later level
request above the frozen level rethrows the captured clone. -/
theorem C9_set_error_without_module (s : DAState) (hr : Int)
    (hmod : s.m_hasModule = false) (hpre : s.m_pError = none) :
    (SetError s hr).2 = [] ∧
    IsError (SetError s hr).1 = true ∧
    (∀ target : Nat, (SetError s hr).1.m_level < target →
      RequireLoadLevel (SetError s hr).1 target = Except.error (LoadFailure.captured hr)) := by
  simp only [SetError, hmod]
  refine ⟨by simp, by simp [IsError], ?_⟩
  intro target hlt
  simp only [Bool.false_eq_true, if_false] at hlt ⊢
  simp [RequireLoadLevel, ThrowIfError, hlt]

/-- A freshly constructed unit whose module pointer is NULL, exercising the module guard
inside SetError. -/
def noModState : DAState := { initState with m_hasModule := false }

/-- Claim C9 witness: SetError on the module free unit, then a level request at
FILE_LOADED. -/
theorem C9_set_error_without_module_witness :
    (SetError noModState E_FAIL).2 = [] ∧
    IsError (SetError noModState E_FAIL).1 = true ∧
    RequireLoadLevel (SetError noModState E_FAIL).1 FILE_LOADED =
      Except.error (LoadFailure.captured E_FAIL) :=
  ⟨(C9_set_error_without_module noModState E_FAIL rfl rfl).1,
   (C9_set_error_without_module noModState E_FAIL rfl rfl).2.1,
   (C9_set_error_without_module noModState E_FAIL rfl rfl).2.2 FILE_LOADED (by decide)⟩

/-- Claim C10: a unit still below FILE_ACTIVE whose activation check has been disabled
(the flag Activate raises just before invoking the global initializer) passes
CheckActivated, provided CheckNoError at FILE_ACTIVE holds, the unit is loaded, and the
underlying image is loaded; and Activate does raise that flag whenever the module has a
global MethodTable. -/
theorem C10_check_activated_during_cctor (s : DAState) (peIsSystem domainCheckLoading : Bool)
    (hno : CheckNoError s FILE_ACTIVE = true)
    (hloaded : IsLoaded s = true)
    (hdis : s.m_bDisableActivationCheck = true)
    (hbelow : s.m_level < FILE_ACTIVE) :
    CheckActivated s true peIsSystem domainCheckLoading = true ∧
    (∀ s2 : DAState, s2.m_hasGlobalMT = true →
      (Activate s2).1.m_bDisableActivationCheck = true) := by
  constructor
  · have hb7 : s.m_level < 7 := hbelow
    have hact : IsActive s = false := by
      unfold IsActive FILE_ACTIVE
      exact decide_eq_false (by omega)
    cases peIsSystem <;> simp [CheckActivated, hno, hact, hloaded, hdis]
  · intro s2 hmt
    simp [Activate, hmt]

/-- A unit that has reached FILE_LOADED and is running its own global initializer, the
activation check disabled by Activate. -/
def cctorState : DAState :=
  { initState with m_level := FILE_LOADED, m_bDisableActivationCheck := true }

/-- Claim C10 witness: the initializing unit passes CheckActivated while below
FILE_ACTIVE, and Activate on a fresh unit with a global MethodTable disables the
activation check. -/
theorem C10_check_activated_witness :
    CheckActivated cctorState true false false = true ∧
    (Activate initState).1.m_bDisableActivationCheck = true :=
  ⟨(C10_check_activated_during_cctor cctorState false false (by decide) (by decide) rfl
      (by decide)).1,
   (C10_check_activated_during_cctor cctorState false false (by decide) (by decide) rfl
      (by decide)).2 initState rfl⟩

/-- One externally driven operation on a load unit: a DoIncrementalLoad request for a
level, or an error capture through SetError carrying the HRESULT of the failing
exception. -/
inductive LoadOp where
  | incrementalLoad (level : Nat)
  | setError (hr : Int)
  deriving DecidableEq, Repr

/-- Run one operation, returning the new state and the notifications it emitted; the
BOOL result of DoIncrementalLoad is dropped here. -/
def runOp (s : DAState) : LoadOp → Option (DAState × List Notification)
  | LoadOp.incrementalLoad level =>
    match DoIncrementalLoad s level with
    | some r => some (r.1, r.2.1)
    | none => none
  | LoadOp.setError hr => some (SetError s hr)

/-- Run a sequence of operations, concatenating the notifications they emit. -/
def runOps (s : DAState) : List LoadOp → Option (DAState × List Notification)
  | [] => some (s, [])
  | op :: ops =>
    match runOp s op with
    | none => none
    | some r =>
      match runOps r.1 ops with
      | none => none
      | some r2 => some (r2.1, r.2 ++ r2.2)

/-- The contract of one operation in a state: SetError requires that no error is already
captured (its PRECONDITION), and an Activate request dispatched on an error free unit
requires IsLoaded (the PRECONDITION of Activate). -/
def validOp (s : DAState) : LoadOp → Bool
  | LoadOp.setError _ => !IsError s
  | LoadOp.incrementalLoad level => IsError s || (!(level == FILE_ACTIVE) || IsLoaded s)

/-- Every operation of the sequence satisfies its contract in the state it runs in. -/
def validOps (s : DAState) : List LoadOp → Bool
  | [] => true
  | op :: ops =>
    validOp s op &&
      match runOp s op with
      | some r => validOps r.1 ops
      | none => false

/-- The number of profiler load finished notifications in an event list. -/
def profCount (evs : List Notification) : Nat :=
  evs.countP fun e =>
    match e with
    | Notification.profilerLoadFinished _ => true
    | _ => false

/-- The number of ETW load finished notifications in an event list. -/
def etwCount (evs : List Notification) : Nat :=
  evs.countP fun e =>
    match e with
    | Notification.etwLoadFinished _ => true
    | _ => false

/-- Whether one operation, run in the given state, reaches a profiler notification site:
the guarded profiler block of BeforeTypeLoad or of DeliverSyncEvents (each dispatched
only when no error is captured), or the guarded profiler block of SetError (reached only
with a module present). -/
def profilerSite1 (s : DAState) : LoadOp → Bool
  | LoadOp.setError _ => s.m_hasModule
  | LoadOp.incrementalLoad level =>
    !IsError s &&
      (level == FILE_LOAD_BEFORE_TYPE_LOAD || level == FILE_LOAD_DELIVER_EVENTS)

/-- Whether a sequence of operations reaches at least one profiler notification site. -/
def anyProfilerSite (s : DAState) : List LoadOp → Bool
  | [] => false
  | op :: ops =>
    profilerSite1 s op ||
      match runOp s op with
      | some r => anyProfilerSite r.1 ops
      | none => false

/-- The number of ETW notification sites one operation reaches in the given state: the
unguarded ETW call of DeliverSyncEvents (dispatched when no error is captured) and the
ETW call of SetError (reached only with a module present). -/
def etwSites1 (s : DAState) : LoadOp → Nat
  | LoadOp.setError _ => if s.m_hasModule then 1 else 0
  | LoadOp.incrementalLoad level =>
    if !IsError s && level == FILE_LOAD_DELIVER_EVENTS then 1 else 0

/-- The number of ETW notification sites a sequence of operations reaches. -/
def etwSites (s : DAState) : List LoadOp → Nat
  | [] => 0
  | op :: ops =>
    etwSites1 s op +
      match runOp s op with
      | some r => etwSites r.1 ops
      | none => 0

theorem profCount_nil : profCount [] = 0 := rfl

theorem etwCount_nil : etwCount [] = 0 := rfl

theorem profCount_cons_etw (hr : Int) (l : List Notification) :
    profCount (Notification.etwLoadFinished hr :: l) = profCount l := by
  simp [profCount, List.countP_cons]

theorem profCount_cons_prof (hr : Int) (l : List Notification) :
    profCount (Notification.profilerLoadFinished hr :: l) = profCount l + 1 := by
  simp [profCount, List.countP_cons]

theorem profCount_cons_dac (l : List Notification) :
    profCount (Notification.dacModuleLoad :: l) = profCount l := by
  simp [profCount, List.countP_cons]

theorem etwCount_cons_etw (hr : Int) (l : List Notification) :
    etwCount (Notification.etwLoadFinished hr :: l) = etwCount l + 1 := by
  simp [etwCount, List.countP_cons]

theorem etwCount_cons_prof (hr : Int) (l : List Notification) :
    etwCount (Notification.profilerLoadFinished hr :: l) = etwCount l := by
  simp [etwCount, List.countP_cons]

theorem etwCount_cons_dac (l : List Notification) :
    etwCount (Notification.dacModuleLoad :: l) = etwCount l := by
  simp [etwCount, List.countP_cons]

theorem profCount_append (a b : List Notification) :
    profCount (a ++ b) = profCount a + profCount b := by
  simp [profCount, List.countP_append]

theorem etwCount_append (a b : List Notification) :
    etwCount (a ++ b) = etwCount a + etwCount b := by
  simp [etwCount, List.countP_append]

theorem ndl_preserves_profiler (s : DAState) :
    (NotifyDebuggerLoad s).1.m_profilerNotified = s.m_profilerNotified := by
  unfold NotifyDebuggerLoad
  split_ifs <;> rfl

theorem ndl_profCount (s : DAState) : profCount (NotifyDebuggerLoad s).2 = 0 := by
  unfold NotifyDebuggerLoad
  split_ifs <;> rfl

theorem ndl_etwCount (s : DAState) : etwCount (NotifyDebuggerLoad s).2 = 0 := by
  unfold NotifyDebuggerLoad
  split_ifs <;> rfl

theorem setError_spec (s : DAState) (hr : Int) :
    profCount (SetError s hr).2 =
      (if (SetError s hr).1.m_profilerNotified && !s.m_profilerNotified then 1 else 0) ∧
    (s.m_profilerNotified = true → (SetError s hr).1.m_profilerNotified = true) ∧
    etwCount (SetError s hr).2 = (if s.m_hasModule then 1 else 0) ∧
    (s.m_hasModule = true → (SetError s hr).1.m_profilerNotified = true) := by
  cases hm : s.m_hasModule <;> cases hp : s.m_profilerNotified <;>
    simp [SetError, hm, hp, profCount_nil, profCount_cons_etw, profCount_cons_prof,
      etwCount_nil, etwCount_cons_etw, etwCount_cons_prof]

theorem beforeTypeLoad_spec (s : DAState) :
    profCount (BeforeTypeLoad s).2 =
      (if (BeforeTypeLoad s).1.m_profilerNotified && !s.m_profilerNotified then 1 else 0) ∧
    (s.m_profilerNotified = true → (BeforeTypeLoad s).1.m_profilerNotified = true) ∧
    etwCount (BeforeTypeLoad s).2 = 0 ∧
    (BeforeTypeLoad s).1.m_profilerNotified = true := by
  cases hp : s.m_profilerNotified <;>
    simp [BeforeTypeLoad, hp, profCount_nil, profCount_cons_prof, etwCount_nil,
      etwCount_cons_prof]

theorem deliverSyncEvents_spec (s : DAState) :
    profCount (DeliverSyncEvents s).2 =
      (if (DeliverSyncEvents s).1.m_profilerNotified && !s.m_profilerNotified
        then 1 else 0) ∧
    (s.m_profilerNotified = true → (DeliverSyncEvents s).1.m_profilerNotified = true) ∧
    etwCount (DeliverSyncEvents s).2 = 1 ∧
    (DeliverSyncEvents s).1.m_profilerNotified = true := by
  cases hp : s.m_profilerNotified <;> cases hd : s.m_debuggerNotified <;>
    simp [DeliverSyncEvents, hp, hd, profCount_nil, profCount_cons_etw,
      profCount_cons_prof, etwCount_nil, etwCount_cons_etw, etwCount_cons_prof,
      profCount_append, etwCount_append, ndl_preserves_profiler, ndl_profCount,
      ndl_etwCount]

theorem runOp_spec (s : DAState) (op : LoadOp) (s1 : DAState) (evs : List Notification)
    (h : runOp s op = some (s1, evs)) :
    profCount evs = (if s1.m_profilerNotified && !s.m_profilerNotified then 1 else 0) ∧
    (s.m_profilerNotified = true → s1.m_profilerNotified = true) ∧
    etwCount evs = etwSites1 s op ∧
    (profilerSite1 s op = true → s1.m_profilerNotified = true) := by
  cases op with
  | setError hr =>
    simp only [runOp, Option.some.injEq] at h
    have h1 : s1 = (SetError s hr).1 := by rw [h]
    have h2 : evs = (SetError s hr).2 := by rw [h]
    subst h1
    subst h2
    obtain ⟨p1, p2, p3, p4⟩ := setError_spec s hr
    exact ⟨p1, p2, by simpa [etwSites1] using p3, by simpa [profilerSite1] using p4⟩
  | incrementalLoad level =>
    simp only [runOp] at h
    by_cases herr : IsError s = true
    · rw [DoIncrementalLoad, if_pos herr] at h
      simp only [Option.some.injEq] at h
      injection h with h1 h2
      subst h1
      subst h2
      refine ⟨?_, fun hh => hh, ?_, ?_⟩
      · cases hp : s.m_profilerNotified <;> simp [hp, profCount_nil]
      · simp [etwSites1, herr, etwCount_nil]
      · simp [profilerSite1, herr]
    · have herr2 : IsError s = false := eq_false_of_ne_true herr
      rw [DoIncrementalLoad, if_neg herr] at h
      rw [dispatchStep] at h
      split_ifs at h with hl1 hl2 hl3 hl4 hl5 hl6 hl7
      · subst hl1
        simp only [Begin, Option.some.injEq] at h
        injection h with h1 h2
        subst h1
        subst h2
        refine ⟨?_, fun hh => hh, ?_, ?_⟩
        · cases hp : s.m_profilerNotified <;> simp [hp, profCount_nil]
        · simp [etwSites1, herr2, etwCount_nil, FILE_LOAD_BEGIN, FILE_LOAD_DELIVER_EVENTS]
        · simp [profilerSite1, FILE_LOAD_BEGIN, FILE_LOAD_BEFORE_TYPE_LOAD,
            FILE_LOAD_DELIVER_EVENTS]
      · subst hl2
        simp only [Option.some.injEq] at h
        injection h with h1 h2
        subst h1
        subst h2
        obtain ⟨p1, p2, p3, p4⟩ := beforeTypeLoad_spec s
        refine ⟨p1, p2, ?_, fun _ => p4⟩
        simp [etwSites1, herr2, FILE_LOAD_BEFORE_TYPE_LOAD, FILE_LOAD_DELIVER_EVENTS, p3]
      · subst hl3
        simp only [EagerFixups, Option.some.injEq] at h
        injection h with h1 h2
        subst h1
        subst h2
        refine ⟨?_, fun hh => hh, ?_, ?_⟩
        · cases hp : s.m_profilerNotified <;> simp [hp, profCount_nil]
        · simp [etwSites1, herr2, etwCount_nil, FILE_LOAD_EAGER_FIXUPS,
            FILE_LOAD_DELIVER_EVENTS]
        · simp [profilerSite1, FILE_LOAD_EAGER_FIXUPS, FILE_LOAD_BEFORE_TYPE_LOAD,
            FILE_LOAD_DELIVER_EVENTS]
      · subst hl4
        simp only [Option.some.injEq] at h
        injection h with h1 h2
        subst h1
        subst h2
        obtain ⟨p1, p2, p3, p4⟩ := deliverSyncEvents_spec s
        refine ⟨p1, p2, ?_, fun _ => p4⟩
        simp [etwSites1, herr2, FILE_LOAD_DELIVER_EVENTS, p3]
      · subst hl5
        simp only [VtableFixups, Option.some.injEq] at h
        injection h with h1 h2
        subst h1
        subst h2
        refine ⟨?_, fun hh => hh, ?_, ?_⟩
        · cases hp : s.m_profilerNotified <;> simp [hp, profCount_nil]
        · simp [etwSites1, herr2, etwCount_nil, FILE_LOAD_VTABLE_FIXUPS,
            FILE_LOAD_DELIVER_EVENTS]
        · simp [profilerSite1, FILE_LOAD_VTABLE_FIXUPS, FILE_LOAD_BEFORE_TYPE_LOAD,
            FILE_LOAD_DELIVER_EVENTS]
      · subst hl6
        simp only [FinishLoad, Option.some.injEq] at h
        injection h with h1 h2
        subst h1
        subst h2
        refine ⟨?_, fun hh => hh, ?_, ?_⟩
        · cases hp : s.m_profilerNotified <;>
            simp [hp, profCount_nil, profCount_cons_dac]
        · simp [etwSites1, herr2, etwCount_nil, etwCount_cons_dac, FILE_LOADED,
            FILE_LOAD_DELIVER_EVENTS]
        · simp [profilerSite1, FILE_LOADED, FILE_LOAD_BEFORE_TYPE_LOAD,
            FILE_LOAD_DELIVER_EVENTS]
      · subst hl7
        simp only [Option.some.injEq] at h
        injection h with h1 h2
        subst h1
        subst h2
        have hpn : (Activate s).1.m_profilerNotified = s.m_profilerNotified := by
          unfold Activate
          split_ifs <;> rfl
        have hev : (Activate s).2 = ([] : List Notification) := by
          unfold Activate
          split_ifs <;> rfl
        refine ⟨?_, fun hh => by rw [hpn]; exact hh, ?_, ?_⟩
        · rw [hev, hpn]
          cases hp : s.m_profilerNotified <;> simp [hp, profCount_nil]
        · rw [hev]
          simp [etwSites1, herr2, etwCount_nil, FILE_ACTIVE, FILE_LOAD_DELIVER_EVENTS]
        · simp [profilerSite1, FILE_ACTIVE, FILE_LOAD_BEFORE_TYPE_LOAD,
            FILE_LOAD_DELIVER_EVENTS]

theorem runOps_spec (ops : List LoadOp) :
    ∀ s s2 evs, runOps s ops = some (s2, evs) →
      profCount evs = (if s2.m_profilerNotified && !s.m_profilerNotified then 1 else 0) ∧
      (s.m_profilerNotified = true → s2.m_profilerNotified = true) ∧
      etwCount evs = etwSites s ops ∧
      (anyProfilerSite s ops = true → s2.m_profilerNotified = true) := by
  induction ops with
  | nil =>
    intro s s2 evs h
    simp only [runOps, Option.some.injEq] at h
    injection h with h1 h2
    subst h1
    subst h2
    refine ⟨?_, fun hh => hh, by simp [etwSites, etwCount_nil], by simp [anyProfilerSite]⟩
    cases hp : s.m_profilerNotified <;> simp [hp, profCount_nil]
  | cons op ops ih =>
    intro s s2 evs h
    rcases hro : runOp s op with _ | r
    · simp only [runOps, hro] at h
      exact Option.noConfusion h
    · simp only [runOps, hro] at h
      rcases hrs : runOps r.1 ops with _ | r2
      · simp only [hrs] at h
        exact Option.noConfusion h
      · simp only [hrs, Option.some.injEq, Prod.mk.injEq] at h
        obtain ⟨h3, h4⟩ := h
        subst h3
        subst h4
        obtain ⟨q1, q2, q3, q4⟩ := runOp_spec s op r.1 r.2 (by rw [hro])
        obtain ⟨w1, w2, w3, w4⟩ := ih r.1 r2.1 r2.2 (by rw [hrs])
        refine ⟨?_, fun hh => w2 (q2 hh), ?_, ?_⟩
        · rw [profCount_append, q1, w1]
          cases ha : s.m_profilerNotified <;> cases hb : r.1.m_profilerNotified <;>
            cases hc : r2.1.m_profilerNotified <;> simp_all
        · rw [etwCount_append, q3, w3]
          simp [etwSites, hro]
        · intro hany
          simp only [anyProfilerSite, hro, Bool.or_eq_true] at hany
          rcases hany with hone | hrest
          · exact w2 (q4 hone)
          · exact w4 hrest

/-- The DELIVER_EVENTS step followed by an error capture, the realistic shape of a unit
whose later VTABLE_FIXUPS or activation work fails after its events were delivered. -/
def c2ops : List LoadOp :=
  [LoadOp.incrementalLoad FILE_LOAD_DELIVER_EVENTS, LoadOp.setError E_FAIL]

/-- The state reached from initState after the profiler was notified, the debugger
should notify flag was raised, and an E_FAIL error was captured. -/
def notifiedErrState : DAState :=
  { initState with
    m_pError := some E_FAIL
    m_profilerNotified := true
    m_shouldNotifyDebugger := true }

/-- The notifications emitted by running c2ops from initState. -/
def c2events : List Notification :=
  [Notification.etwLoadFinished S_OK, Notification.profilerLoadFinished S_OK,
    Notification.etwLoadFinished E_FAIL]

/-- Claim C2 counterexample: the valid sequence that runs the DELIVER_EVENTS step and then
captures an error emits the ETW load finished notification twice, once with S_OK on the
success path and once with E_FAIL on the failure path, refuting the stated exactly once
delivery that never fires on both paths of the same unit. -/
theorem C2_counterexample :
    validOps initState c2ops = true ∧
    runOps initState c2ops = some (notifiedErrState, c2events) ∧
    etwCount c2events = 2 ∧
    Notification.etwLoadFinished S_OK ∈ c2events ∧
    Notification.etwLoadFinished E_FAIL ∈ c2events := by
  decide

/-- Claim C2 (amended): the tracing load finished notification carries no one shot flag;
across every valid sequence of DoIncrementalLoad and SetError calls it fires exactly once
per ETW site reached, that is once each time the DELIVER_EVENTS step is dispatched and
once at error capture with the module present — so a unit whose DELIVER_EVENTS step
completed and which later captures an error receives two tracing notifications, one on
the success path and one on the failure path. -/
theorem C2_etw_fires_per_site (s : DAState) (ops : List LoadOp) (s2 : DAState)
    (evs : List Notification)
    (hvalid : validOps s ops = true)
    (h : runOps s ops = some (s2, evs)) :
    etwCount evs = etwSites s ops :=
  (runOps_spec ops s s2 evs h).2.2.1

/-- Claim C2 witness: the amended statement evaluated on the counterexample run, where
two ETW sites are reached and two ETW notifications come out. -/
theorem C2_etw_fires_per_site_witness :
    etwCount c2events = etwSites initState c2ops :=
  C2_etw_fires_per_site initState c2ops notifiedErrState c2events (by decide) (by decide)

/-- Claim C4: across every valid sequence of DoIncrementalLoad and SetError calls on a
unit whose profiler flag is down, at most one profiler load finished notification is
delivered, and exactly one is delivered as soon as the run reaches any of the three
notifying sites (the guarded block of BeforeTypeLoad, of DeliverSyncEvents, or of
SetError with the module present), because the three sites share the single one shot
profiler notified flag. -/
theorem C4_profiler_at_most_once (s : DAState) (ops : List LoadOp) (s2 : DAState)
    (evs : List Notification)
    (hvalid : validOps s ops = true)
    (hfresh : s.m_profilerNotified = false)
    (h : runOps s ops = some (s2, evs)) :
    profCount evs ≤ 1 ∧ (anyProfilerSite s ops = true → profCount evs = 1) := by
  obtain ⟨p1, p2, p3, p4⟩ := runOps_spec ops s s2 evs h
  constructor
  · rw [p1]
    split <;> simp
  · intro hany
    rw [p1, p4 hany, hfresh]
    rfl

/-- The run of the spec section 8 failure scenario shape: BeforeTypeLoad notifies the
profiler, DeliverSyncEvents skips it, a later error capture skips it again. -/
def c4ops : List LoadOp :=
  [LoadOp.incrementalLoad FILE_LOAD_BEFORE_TYPE_LOAD,
    LoadOp.incrementalLoad FILE_LOAD_DELIVER_EVENTS, LoadOp.setError E_FAIL]

/-- The notifications emitted by running c4ops from initState: exactly one profiler
notification despite three profiler sites being reached. -/
def c4events : List Notification :=
  [Notification.profilerLoadFinished S_OK, Notification.etwLoadFinished S_OK,
    Notification.etwLoadFinished E_FAIL]

/-- Claim C4 witness: the run that reaches all three profiler sites delivers exactly one
profiler notification. -/
theorem C4_profiler_at_most_once_witness :
    profCount c4events ≤ 1 ∧
    (anyProfilerSite initState c4ops = true → profCount c4events = 1) :=
  C4_profiler_at_most_once initState c4ops notifiedErrState c4events (by decide) (by decide)
    (by decide)
